import Mathlib

/-!
Verification of the FPS reaction-time analysis pipeline (`analysis.py`) and the
EMS waveform generator (`plot_waveform.py`).

Modelling conventions, chosen to mirror the Python source exactly:

* Reaction times and all statistics are modelled over `ℚ`.  Every numeric
  literal appearing in the source (`100`, `1000`, `0.25`, `0.75`, `1.5`,
  `0.05`, `3`, `1.0`) is exactly representable both as a binary float and as a
  rational, so the float comparisons and the arithmetic on these inputs are
  faithfully mirrored by `ℚ` arithmetic.
* pandas `Series.std()` uses `ddof = 1` (sample standard deviation) and yields
  NaN when the series has fewer than two entries; NaN results are modelled by
  `Option` (`none` = NaN).  numpy `ndarray.std()` uses `ddof = 0` (population
  standard deviation).
* The effect size `(m₁ - m₂) / sqrt((sd₁² + sd₂²) / 2)` computed by the source
  involves a square root, which is not rational-valued.  It is represented
  exactly by the pair `(numerator, squared denominator)`:
  the pair `(n, d)` with `0 < d` denotes the real number `n / Real.sqrt d`,
  and two such pairs with the same numerator `n ≠ 0` and positive squared
  denominators denote the same real iff the squared denominators are equal.
* The rank-based tests (`scipy.stats.mannwhitneyu`, `scipy.stats.kruskal`) are
  external library calls; they are abstracted as function parameters returning
  a `(statistic, p-value)` pair, which is exactly the interface the source
  consumes.
* Python's `list.sort(key=...)` is a stable sort; `List.insertionSort` is also
  stable, and any two stable sorts with the same key agree, so it is a faithful
  model.  Timestamps `YYYYMMDD_HHMMSS` are fixed-width digit strings whose
  lexicographic order coincides with the numeric order of their 14 digits, so
  they are modelled as `ℕ` sort keys.
-/

/-! ## Descriptive statistics (pandas / numpy semantics) -/

/-- Model of `Series.mean()`: arithmetic mean.  On the empty series pandas yields NaN;
the claims only evaluate the mean of nonempty series, where this model is
exact (the `ℚ` junk value on `[]` is never relied upon). -/
def seriesMean (l : List ℚ) : ℚ := l.sum / l.length

/-- Sum of squared deviations from the mean, shared by both variance forms. -/
def sqDevSum (l : List ℚ) : ℚ := (l.map (fun x => (x - seriesMean l) ^ 2)).sum

/-- Squared pandas `Series.std()` (`ddof = 1`): sample variance `Σ(x-m)²/(n-1)`. -/
def sampleVar (l : List ℚ) : ℚ := sqDevSum l / ((l.length : ℚ) - 1)

/-- Squared numpy `ndarray.std()` (`ddof = 0`): population variance `Σ(x-m)²/n`. -/
def popVar (l : List ℚ) : ℚ := sqDevSum l / (l.length : ℚ)

/-- pandas `Series.std()` squared, with its NaN behaviour made explicit:
`ddof = 1` division is undefined (NaN) when the series has fewer than two
entries. `none` models NaN. -/
def pandasSd2 (l : List ℚ) : Option ℚ :=
  if 2 ≤ l.length then some (sampleVar l) else none

/-- Model of `Series.quantile(q)` with the default linear interpolation (also pandas
`median()` at `q = 1/2`): on the ascending sorted values `s`, with
`pos = q*(n-1)`, `i = ⌊pos⌋`, the result is `s[i] + (s[i+1] - s[i])*(pos-i)`.
On the empty series pandas yields NaN; the junk value `0` produced here is
only reached through the claims in contexts where it is filtered against an
empty list, giving the same final result as the NaN comparisons (all `False`)
in the source. -/
def seriesQuantile (l : List ℚ) (q : ℚ) : ℚ :=
  let s := List.insertionSort (fun a b : ℚ => a ≤ b) l
  let pos : ℚ := q * ((l.length : ℚ) - 1)
  let i : ℕ := (Int.floor pos).toNat
  let lo := s.getD i 0
  let hi := s.getD (i + 1) lo
  lo + (hi - lo) * (pos - (i : ℚ))

/-! ## Outlier filter (`remove_outliers`, analysis.py lines 133-154) -/

/-- The physiological bound mask `(series >= 100) & (series <= 1000)`. -/
def physioKeep (x : ℚ) : Bool := decide (100 ≤ x) && decide (x ≤ 1000)

/-- First filtering stage of `remove_outliers`: retain values in `[100, 1000]` ms. -/
def physioFilter (l : List ℚ) : List ℚ := l.filter physioKeep

/-- The IQR bounds `(q1 - 1.5*iqr, q3 + 1.5*iqr)` computed from a series'
own quartiles (`quantile(0.25)`, `quantile(0.75)`). -/
def iqrBounds (l : List ℚ) : ℚ × ℚ :=
  let q1 := seriesQuantile l (1 / 4)
  let q3 := seriesQuantile l (3 / 4)
  let iqr := q3 - q1
  (q1 - 3 / 2 * iqr, q3 + 3 / 2 * iqr)

/-- Model of `remove_outliers` (the `label`/printing parameter is output-only and
omitted): physiological bound filter, then the IQR filter computed on the
already-filtered data. -/
def remove_outliers (series : List ℚ) : List ℚ :=
  let cleaned := physioFilter series
  let b := iqrBounds cleaned
  cleaned.filter (fun x => decide (b.1 ≤ x) && decide (x ≤ b.2))

/-! ## Data model (`load_all_data`, `classify_phases`, analysis.py lines 71-127) -/

/-- One parsed input file, as built by `load_all_data`: the dict
`{filename, ems_status, timestamp, settings, data}`, with `data` restricted to
its `ReactionTime_ms` column (the only column the analysis reads).  The
timestamp `YYYYMMDD_HHMMSS` is a fixed-width digit string whose lexicographic
order is the numeric order of its digits, modelled as `ℕ`. -/
structure RawTrialFile where
  filename : String
  ems_status : String
  timestamp : ℕ
  settings : List (String × String)
  data : List ℚ
deriving DecidableEq, Repr

/-- The timestamp sort key used by `subjects[name].sort(key=lambda x: x['timestamp'])`. -/
def tsLe (a b : RawTrialFile) : Prop := a.timestamp ≤ b.timestamp

instance : DecidableRel tsLe := fun a b => Nat.decLe a.timestamp b.timestamp

instance : IsTotal RawTrialFile tsLe := ⟨fun a b => Nat.le_total a.timestamp b.timestamp⟩

instance : IsTrans RawTrialFile tsLe := ⟨fun _ _ _ h1 h2 => Nat.le_trans h1 h2⟩

/-- The chronological sort performed at the end of `load_all_data`.
Python's `list.sort` is stable, as is `insertionSort`; stable sorts with the
same key coincide, so this is an exact model. -/
def sortByTimestamp (files : List RawTrialFile) : List RawTrialFile :=
  List.insertionSort tsLe files

/-- The `phases` dict produced by `classify_phases`: six fixed keys, each
present (`some`) only when the corresponding positional file exists. -/
structure PhaseAssignment where
  ems_response : Option RawTrialFile
  train_phase1 : Option RawTrialFile
  train_phase2 : Option RawTrialFile
  baseline : Option RawTrialFile
  measure_phase1 : Option RawTrialFile
  measure_phase2 : Option RawTrialFile
deriving DecidableEq, Repr

/-- Model of `classify_phases`: partition the subject's (chronologically ordered) files
by EMS status, preserving relative order, and assign the first/second/third of
each status positionally.  The `if len(xs) >= k+1: phases[key] = xs[k]`
pattern is exactly `xs.get? k`. -/
def classify_phases (subject_files : List RawTrialFile) : PhaseAssignment :=
  let off_files := subject_files.filter (fun f => f.ems_status == "EMS_OFF")
  let on_files := subject_files.filter (fun f => f.ems_status == "EMS_ON")
  { ems_response := on_files.get? 0
    train_phase1 := on_files.get? 1
    train_phase2 := on_files.get? 2
    baseline := off_files.get? 0
    measure_phase1 := off_files.get? 1
    measure_phase2 := off_files.get? 2 }

/-! ## File parser (`parse_csv`, analysis.py lines 35-68)

Python string primitives (`str.strip`, `str.split`, `str.startswith`,
`int(...)`, `float(...)`) are modelled structurally over the character list of
the string, so that every parser run is kernel-computable. -/

/-- Python `str.strip()`: remove leading and trailing whitespace. -/
def trimChars (cs : List Char) : List Char :=
  ((cs.dropWhile Char.isWhitespace).reverse.dropWhile Char.isWhitespace).reverse

/-- Python `str.split(sep)` for a one-character separator (no maxsplit). -/
def splitOnChar (sep : Char) : List Char → List (List Char)
  | [] => [[]]
  | c :: rest =>
    let r := splitOnChar sep rest
    if c = sep then [] :: r
    else
      match r with
      | [] => [[c]]
      | g :: gs => (c :: g) :: gs

/-- Rebuild a Python string from a character list. -/
def strOf (cs : List Char) : String := ⟨cs⟩

/-- Python `line.split(',', 1)` for a line already known to contain a comma:
the part before the first comma and everything after it. -/
def splitFirstComma (cs : List Char) : List Char × List Char :=
  match splitOnChar ',' cs with
  | [] => (cs, [])
  | k :: rest => (k, List.intercalate [','] rest)

/-- CPython dict assignment `d[k] = v`: update in place when the key exists
(keeping its position), append otherwise. -/
def dictInsert (s : List (String × String)) (k v : String) : List (String × String) :=
  if s.any (fun p => p.1 == k) then s.map (fun p => if p.1 == k then (k, v) else p)
  else s ++ [(k, v)]

/-- Numeric value of a digit string (most significant first). -/
def digitsToNat (ds : List Char) : ℕ := ds.foldl (fun a c => a * 10 + (c.toNat - 48)) 0

/-- Models the Python built-in `int(str)`: surrounding whitespace, an optional
sign, then one or more decimal digits; `none` models the `ValueError` raised
on any other input.  (Python also accepts digit-group underscores, which never
occur in this data format and are not modelled.) -/
def pyIntParse (cs : List Char) : Option Int :=
  let t := trimChars cs
  let signed : Bool × List Char :=
    match t with
    | c :: rest => if c = '-' then (true, rest) else if c = '+' then (false, rest) else (false, t)
    | [] => (false, [])
  if !signed.2.isEmpty && signed.2.all Char.isDigit then
    some (if signed.1 then -(digitsToNat signed.2 : Int) else (digitsToNat signed.2 : Int))
  else none

/-- Models the Python built-in `float(str)` on the forms that occur in this
format: whitespace, optional sign, digits with at most one decimal point and
at least one digit; `none` models the `ValueError` raised otherwise.
(Exponent and `inf`/`nan` spellings never occur in this data and are not
modelled.) -/
def pyFloatParse (cs : List Char) : Option ℚ :=
  let t := trimChars cs
  let signed : Bool × List Char :=
    match t with
    | c :: rest => if c = '-' then (true, rest) else if c = '+' then (false, rest) else (false, t)
    | [] => (false, [])
  match splitOnChar '.' signed.2 with
  | [a] =>
    if !a.isEmpty && a.all Char.isDigit then
      some (if signed.1 then -(digitsToNat a : ℚ) else (digitsToNat a : ℚ))
    else none
  | [a, b] =>
    if (!a.isEmpty || !b.isEmpty) && a.all Char.isDigit && b.all Char.isDigit then
      let v : ℚ := (digitsToNat (a ++ b) : ℚ) / ((10 : ℚ) ^ b.length)
      some (if signed.1 then -v else v)
    else none
  | _ => none

/-- One parsed trial row: `{'Trial': int, 'Direction': str, 'ReactionTime_ms': float}`. -/
structure TrialRecord where
  trial : Int
  direction : String
  rt : ℚ
deriving DecidableEq, Repr

/-- The only exception `parse_csv` itself can raise while scanning rows: the
`ValueError` propagating out of `int(parts[0])` or `float(parts[2])`.  (The
`IOError`/decode failure of `open()` happens before any line is seen and is
outside this model, which starts from the decoded line list.) -/
inductive ParseError where
  | valueError : String → ParseError
deriving DecidableEq, Repr

/-- The loop state of `parse_csv`: the two mode flags and the accumulators. -/
structure ParserState where
  in_settings : Bool
  in_trials : Bool
  settings : List (String × String)
  trials : List TrialRecord
deriving DecidableEq, Repr

/-- The section markers, matched by `str.startswith` in the source. -/
def settingsMarker : List Char := "--- Settings ---".data

/-- The summary marker: reaching it breaks out of the line loop. -/
def summaryMarker : List Char := "--- Summary ---".data

/-- The trials-header marker `'Trial,Direction,'` (a prefix of the full header
`Trial,Direction,ReactionTime_ms`). -/
def trialsMarker : List Char := "Trial,Direction,".data

/-- One iteration of the `for line in f` loop of `parse_csv`.
`ok none` models the `break` on the summary marker; `error` models the
`ValueError` raised by `int(parts[0])`/`float(parts[2])` on a trial row with
at least 3 fields. -/
def parseLine (st : ParserState) (raw : String) : Except ParseError (Option ParserState) :=
  let line := trimChars raw.data
  if settingsMarker.isPrefixOf line then
    .ok (some { st with in_settings := true, in_trials := false })
  else if summaryMarker.isPrefixOf line then
    .ok none
  else if trialsMarker.isPrefixOf line then
    .ok (some { st with in_trials := true, in_settings := false })
  else
    let st1 :=
      if st.in_settings && line.contains ',' then
        let kv := splitFirstComma line
        { st with settings := dictInsert st.settings (strOf (trimChars kv.1)) (strOf (trimChars kv.2)) }
      else st
    if st1.in_trials && !line.isEmpty then
      match splitOnChar ',' line with
      | p0 :: _p1 :: p2 :: _rest =>
        match pyIntParse p0, pyFloatParse p2 with
        | some i, some r =>
          .ok (some { st1 with trials := st1.trials ++ [⟨i, strOf _p1, r⟩] })
        | _, _ => .error (.valueError (strOf line))
      | _ => .ok (some st1)
    else .ok (some st1)

/-- The line loop of `parse_csv`, threading the state; stops early on the
summary marker, propagates the `ValueError` of a bad trial row. -/
def runParse (st : ParserState) : List String → Except ParseError ParserState
  | [] => .ok st
  | l :: rest =>
    match parseLine st l with
    | .error e => .error e
    | .ok none => .ok st
    | .ok (some st2) => runParse st2 rest

/-- Model of `parse_csv`, from the decoded lines of the file to the settings mapping
and the trial table. -/
def parse_csv (lines : List String) : Except ParseError (List (String × String) × List TrialRecord) :=
  match runParse ⟨false, false, [], []⟩ lines with
  | .error e => .error e
  | .ok st => .ok (st.settings, st.trials)

/-! ## Subject analyzer (`analyze_subject`, analysis.py lines 160-218) -/

/-- The per-subject result dict returned by `analyze_subject` (console-only
values such as the U statistics of the three tests are printed, not returned,
and the returned `u` values are likewise not part of the dict).  Effect sizes
are `(numerator, squared denominator)` pairs (see the file header), `none`
when a pandas standard deviation is NaN (series shorter than 2). -/
structure SubjectResult where
  bl_mean : ℚ
  bl_sd2 : Option ℚ
  bl_median : ℚ
  bl_n : ℕ
  p1_mean : ℚ
  p1_sd2 : Option ℚ
  p1_median : ℚ
  p1_n : ℕ
  p2_mean : ℚ
  p2_sd2 : Option ℚ
  p2_median : ℚ
  p2_n : ℕ
  change_p1 : ℚ
  change_p2 : ℚ
  d_p1 : Option (ℚ × ℚ)
  p_p1 : ℚ
  d_p2 : Option (ℚ × ℚ)
  p_p2 : ℚ
  bl_data : List ℚ
  p1_data : List ℚ
  p2_data : List ℚ
deriving DecidableEq, Repr

/-- The effect size `(bl.std()**2 + other.std()**2)/2` denominator paired with
its `mean` difference numerator, NaN (`none`) when either pandas SD is NaN. -/
def subjectEffect (g1 g2 : List ℚ) : Option (ℚ × ℚ) :=
  match pandasSd2 g1, pandasSd2 g2 with
  | some v1, some v2 => some (seriesMean g1 - seriesMean g2, (v1 + v2) / 2)
  | _, _ => none

/-- Model of `analyze_subject` on the three raw phase series, with
`scipy.stats.mannwhitneyu(·, ·, alternative='greater')` abstracted as the
function parameter `mwuG` returning `(U, p)`.  The function is total: the
source raises nothing on short series — pandas yields NaN instead (`none`). -/
def analyze_subject (mwuG : List ℚ → List ℚ → ℚ × ℚ)
    (bl_raw p1_raw p2_raw : List ℚ) : SubjectResult :=
  let bl := remove_outliers bl_raw
  let p1 := remove_outliers p1_raw
  let p2 := remove_outliers p2_raw
  { bl_mean := seriesMean bl
    bl_sd2 := pandasSd2 bl
    bl_median := seriesQuantile bl (1 / 2)
    bl_n := bl.length
    p1_mean := seriesMean p1
    p1_sd2 := pandasSd2 p1
    p1_median := seriesQuantile p1 (1 / 2)
    p1_n := p1.length
    p2_mean := seriesMean p2
    p2_sd2 := pandasSd2 p2
    p2_median := seriesQuantile p2 (1 / 2)
    p2_n := p2.length
    change_p1 := seriesMean bl - seriesMean p1
    change_p2 := seriesMean bl - seriesMean p2
    d_p1 := subjectEffect bl p1
    p_p1 := (mwuG bl p1).2
    d_p2 := subjectEffect bl p2
    p_p2 := (mwuG bl p2).2
    bl_data := bl
    p1_data := p1
    p2_data := p2 }

/-- The error raised by the `phases['baseline']` / `phases['measure_phase1']`
/ `phases['measure_phase2']` dict accesses at the top of `analyze_subject`
when the key is absent (Python `KeyError`). -/
inductive SubjErr where
  | keyError : SubjErr
deriving DecidableEq, Repr

/-- Model of `analyze_subject` as called from `main`: reads the three measurement
phases out of the classification dict, raising `KeyError` when one is
missing, then analyzes their `ReactionTime_ms` columns. -/
def analyzeFromPhases (mwuG : List ℚ → List ℚ → ℚ × ℚ)
    (phases : PhaseAssignment) : Except SubjErr SubjectResult :=
  match phases.baseline, phases.measure_phase1, phases.measure_phase2 with
  | some bl, some p1, some p2 => .ok (analyze_subject mwuG bl.data p1.data p2.data)
  | _, _, _ => .error .keyError

/-- Modelled from the spec: the standardized mean-difference effect size
`(mean₁ − mean₂) / sqrt((SD₁² + SD₂²)/2)` of §4.5, represented as the
`(numerator, squared denominator)` pair and parameterized by the (single,
consistent) squared-SD definition the spec prescribes. -/
def specEffectSize (sd2 : List ℚ → ℚ) (xs ys : List ℚ) : ℚ × ℚ :=
  (seriesMean xs - seriesMean ys, (sd2 xs + sd2 ys) / 2)

/-! ## Group analyzer, pooled-trial branch (`group_analysis`, analysis.py lines 267-296) -/

/-- One printed line of the pooled pairwise comparisons: the U statistic, the
reported p-value (Bonferroni-corrected in the post-hoc branch, raw one-sided
in the supplementary branch), and the effect size pair. -/
structure PooledRow where
  u : ℚ
  p : ℚ
  d : ℚ × ℚ
deriving DecidableEq, Repr

/-- Which branch of the `if h_p < 0.05` conditional ran, with its rows. -/
inductive PooledTail where
  | posthoc : List PooledRow → PooledTail
  | supplementary : List PooledRow → PooledTail
deriving DecidableEq, Repr

/-- Model of `np.concatenate([r['bl_data'] for r in results_list])`. -/
def allBl (results : List SubjectResult) : List ℚ :=
  (results.map SubjectResult.bl_data).flatten

/-- Model of `np.concatenate([r['p1_data'] for r in results_list])`. -/
def allP1 (results : List SubjectResult) : List ℚ :=
  (results.map SubjectResult.p1_data).flatten

/-- Model of `np.concatenate([r['p2_data'] for r in results_list])`. -/
def allP2 (results : List SubjectResult) : List ℚ :=
  (results.map SubjectResult.p2_data).flatten

/-- The numpy effect size of the pooled branch: `g.mean()`/`g.std()` of numpy
arrays use the population (ddof = 0) standard deviation. -/
def pooledEffect (g1 g2 : List ℚ) : ℚ × ℚ :=
  (seriesMean g1 - seriesMean g2, (popVar g1 + popVar g2) / 2)

/-- The pooled-trial part of `group_analysis` (lines 267-296): Kruskal-Wallis
omnibus over the three concatenated pools, then either the Bonferroni-corrected
two-sided post-hoc over all three pairs (`min(p*3, 1.0)`), or the one-sided
supplementary comparisons of baseline against each post-phase pool.
`kruskal`, `mwuTwo` (`alternative='two-sided'`) and `mwuG`
(`alternative='greater'`) abstract the scipy calls, returning `(stat, p)`. -/
def group_pooled (kruskal : List ℚ → List ℚ → List ℚ → ℚ × ℚ)
    (mwuTwo mwuG : List ℚ → List ℚ → ℚ × ℚ)
    (results : List SubjectResult) : PooledTail :=
  let all_bl := allBl results
  let all_p1 := allP1 results
  let all_p2 := allP2 results
  let h_p := (kruskal all_bl all_p1 all_p2).2
  if h_p < 1 / 20 then
    PooledTail.posthoc
      ([(all_bl, all_p1), (all_bl, all_p2), (all_p1, all_p2)].map (fun g =>
        let up := mwuTwo g.1 g.2
        { u := up.1, p := min (up.2 * 3) 1, d := pooledEffect g.1 g.2 }))
  else
    PooledTail.supplementary
      ([(all_bl, all_p1), (all_bl, all_p2)].map (fun g =>
        let up := mwuG g.1 g.2
        { u := up.1, p := up.2, d := pooledEffect g.1 g.2 }))

/-! ## Waveform generator (`plot_waveform.py` lines 29-79) -/

/-- Pulse width of each phase in microseconds. -/
def PULSE_WIDTH_US : ℕ := 50

/-- Number of biphasic cycles per stimulation. -/
def BURST_COUNT : ℕ := 3

/-- Number of stimulation repetitions. -/
def PULSE_COUNT : ℕ := 1

/-- Interval between repetitions in microseconds. -/
def PULSE_INTERVAL_US : ℕ := 40000

/-- The time step `DT`: every appended sample advances `t` by 1 μs. -/
def DT : ℕ := 1

/-- One inner `for _ in range(PULSE_WIDTH_US)` loop: `PULSE_WIDTH_US` samples
at a constant level.  Waveform levels `1.0`, `0.0`, `-1.0` are exactly the
integers `1`, `0`, `-1`. -/
def phaseSamples (v : ℤ) : List ℤ := List.replicate PULSE_WIDTH_US v

/-- One `burst` iteration: positive phase, rest, negative phase, rest. -/
def burstCycle : List ℤ :=
  phaseSamples 1 ++ phaseSamples 0 ++ phaseSamples (-1) ++ phaseSamples 0

/-- One `rep` iteration: `BURST_COUNT` cycles, then the inter-pulse interval
of zeros except after the last repetition (`if rep < PULSE_COUNT - 1`). -/
def repWave (rep : ℕ) : List ℤ :=
  (List.replicate BURST_COUNT burstCycle).flatten ++
    (if rep < PULSE_COUNT - 1 then List.replicate PULSE_INTERVAL_US 0 else [])

/-- The waveform array built by `generate_biphasic_waveform`. -/
def generate_waveform : List ℤ :=
  ((List.range PULSE_COUNT).map repWave).flatten

/-- The time array built by `generate_biphasic_waveform`: `t` starts at 0 and
is incremented by `DT = 1` exactly once per appended sample, so the time list
is `0, 1, 2, ...` along the whole waveform. -/
def generate_time : List ℕ := List.range (generate_waveform.length * DT)

/-! ## Fixtures used by witnesses and counterexamples -/

/-- A stand-in for the abstracted `mannwhitneyu`, returning `(0, 0)`. -/
def mwuDummy : List ℚ → List ℚ → ℚ × ℚ := fun _ _ => (0, 0)

/-- A stand-in `kruskal` whose p-value `0` takes the significant branch. -/
def kruskalDummy : List ℚ → List ℚ → List ℚ → ℚ × ℚ := fun _ _ _ => (0, 0)

/-- A stand-in `kruskal` whose p-value `1` takes the non-significant branch. -/
def kruskalOne : List ℚ → List ℚ → List ℚ → ℚ × ℚ := fun _ _ _ => (0, 1)

/-- EMS-ON fixture files with increasing timestamps. -/
def onFile (ts : ℕ) : RawTrialFile := ⟨"Data_A_EMS_ON", "EMS_ON", ts, [], []⟩

/-- EMS-OFF fixture files with increasing timestamps. -/
def offFile (ts : ℕ) : RawTrialFile := ⟨"Data_A_EMS_OFF", "EMS_OFF", ts, [], []⟩

/-! # Theorems -/

/-! ### Helper lemmas about the outlier filter -/

theorem physioFilter_mem {x : ℚ} {l : List ℚ} (h : x ∈ physioFilter l) :
    100 ≤ x ∧ x ≤ 1000 := by
  have := List.of_mem_filter h
  simpa [physioKeep] using this

theorem remove_outliers_sublist_physio (s : List ℚ) :
    (remove_outliers s).Sublist (physioFilter s) := by
  unfold remove_outliers
  exact List.filter_sublist _

theorem remove_outliers_sublist (s : List ℚ) :
    (remove_outliers s).Sublist s :=
  (remove_outliers_sublist_physio s).trans (List.filter_sublist s)

theorem remove_outliers_mem {x : ℚ} {s : List ℚ} (h : x ∈ remove_outliers s) :
    100 ≤ x ∧ x ≤ 1000 :=
  physioFilter_mem ((remove_outliers_sublist_physio s).subset h)

theorem physioFilter_eq_self {s : List ℚ} (h : ∀ x ∈ s, 100 ≤ x ∧ x ≤ 1000) :
    physioFilter s = s := by
  refine List.filter_eq_self.mpr fun a ha => ?_
  simp [physioKeep, (h a ha).1, (h a ha).2]

theorem remove_outliers_eq_self {s : List ℚ}
    (hphys : ∀ x ∈ s, 100 ≤ x ∧ x ≤ 1000)
    (hiqr : ∀ x ∈ s, (iqrBounds s).1 ≤ x ∧ x ≤ (iqrBounds s).2) :
    remove_outliers s = s := by
  unfold remove_outliers
  rw [physioFilter_eq_self hphys]
  refine List.filter_eq_self.mpr fun a ha => ?_
  simp [(hiqr a ha).1, (hiqr a ha).2]


/-! ### Helper: a sorted permutation of three key-increasing elements is unique -/

theorem sorted_perm_triple {α : Type} (key : α → ℕ) {a b c : α} {l : List α}
    (hp : l.Perm [a, b, c]) (hs : l.Pairwise (fun u v => key u ≤ key v))
    (hab : key a < key b) (hbc : key b < key c) : l = [a, b, c] := by
  have hlen : l.length = 3 := by simpa using hp.length_eq
  rcases l with _ | ⟨x, _ | ⟨y, _ | ⟨z, _ | ⟨w, r⟩⟩⟩⟩ <;> simp at hlen
  have h1 : List.Sorted (fun m n : ℕ => m ≤ n) ([x, y, z].map key) :=
    List.pairwise_map.mpr hs
  have h2 : List.Sorted (fun m n : ℕ => m ≤ n) ([a, b, c].map key) := by
    refine List.pairwise_map.mpr ?_
    refine List.Pairwise.cons ?_ (List.Pairwise.cons ?_ (List.pairwise_singleton _ _))
    · intro v hv
      simp at hv
      rcases hv with rfl | rfl
      · exact hab.le
      · exact (hab.trans hbc).le
    · intro v hv
      simp at hv
      subst hv
      exact hbc.le
  have hmap : [x, y, z].map key = [a, b, c].map key :=
    List.eq_of_perm_of_sorted (hp.map key) h1 h2
  simp at hmap
  obtain ⟨hka, hkb, hkc⟩ := hmap
  have hx : x ∈ [a, b, c] := hp.subset (by simp)
  have hy : y ∈ [a, b, c] := hp.subset (by simp)
  have hz : z ∈ [a, b, c] := hp.subset (by simp)
  simp at hx hy hz
  rcases hx with rfl | rfl | rfl <;> rcases hy with rfl | rfl | rfl <;>
    rcases hz with rfl | rfl | rfl <;> first | rfl | omega

/-- C1: for a subject file set holding exactly 3 `EMS_ON` files with
timestamps `t1 < t2 < t3` and exactly 3 `EMS_OFF` files with timestamps
`t4 < t5 < t6`, in any interleaving of the unsorted list, the classifier run
on the chronologically sorted list maps `ems_response`/`train_phase1`/
`train_phase2` to the ON files at `t1`/`t2`/`t3` and `baseline`/
`measure_phase1`/`measure_phase2` to the OFF files at `t4`/`t5`/`t6`. -/
theorem classify_phases_interleaving
    (f1 f2 f3 f4 f5 f6 : RawTrialFile) (l : List RawTrialFile)
    (hperm : l.Perm [f1, f2, f3, f4, f5, f6])
    (hs1 : f1.ems_status = "EMS_ON") (hs2 : f2.ems_status = "EMS_ON")
    (hs3 : f3.ems_status = "EMS_ON") (hs4 : f4.ems_status = "EMS_OFF")
    (hs5 : f5.ems_status = "EMS_OFF") (hs6 : f6.ems_status = "EMS_OFF")
    (h12 : f1.timestamp < f2.timestamp) (h23 : f2.timestamp < f3.timestamp)
    (h45 : f4.timestamp < f5.timestamp) (h56 : f5.timestamp < f6.timestamp) :
    classify_phases (sortByTimestamp l) =
      { ems_response := some f1, train_phase1 := some f2, train_phase2 := some f3
        baseline := some f4, measure_phase1 := some f5, measure_phase2 := some f6 } := by
  have hsorted : (sortByTimestamp l).Pairwise tsLe :=
    List.sorted_insertionSort tsLe l
  have hperm2 : (sortByTimestamp l).Perm [f1, f2, f3, f4, f5, f6] :=
    (List.perm_insertionSort tsLe l).trans hperm
  have hfilterOn : [f1, f2, f3, f4, f5, f6].filter (fun f => f.ems_status == "EMS_ON")
      = [f1, f2, f3] := by
    simp [List.filter_cons, hs1, hs2, hs3, hs4, hs5, hs6]
  have hfilterOff : [f1, f2, f3, f4, f5, f6].filter (fun f => f.ems_status == "EMS_OFF")
      = [f4, f5, f6] := by
    simp [List.filter_cons, hs1, hs2, hs3, hs4, hs5, hs6]
  have honperm : ((sortByTimestamp l).filter (fun f => f.ems_status == "EMS_ON")).Perm
      [f1, f2, f3] := by
    have h := hperm2.filter (fun f => f.ems_status == "EMS_ON")
    rwa [hfilterOn] at h
  have hoffperm : ((sortByTimestamp l).filter (fun f => f.ems_status == "EMS_OFF")).Perm
      [f4, f5, f6] := by
    have h := hperm2.filter (fun f => f.ems_status == "EMS_OFF")
    rwa [hfilterOff] at h
  have hsorted2 : (sortByTimestamp l).Pairwise
      (fun u v : RawTrialFile => u.timestamp ≤ v.timestamp) := hsorted
  have hon : (sortByTimestamp l).filter (fun f => f.ems_status == "EMS_ON") = [f1, f2, f3] :=
    sorted_perm_triple (fun f => f.timestamp) honperm
      (hsorted2.filter (fun f => f.ems_status == "EMS_ON")) h12 h23
  have hoff : (sortByTimestamp l).filter (fun f => f.ems_status == "EMS_OFF") = [f4, f5, f6] :=
    sorted_perm_triple (fun f => f.timestamp) hoffperm
      (hsorted2.filter (fun f => f.ems_status == "EMS_OFF")) h45 h56
  simp only [classify_phases, hon, hoff]
  rfl

/-- Witness for C1 at a concrete interleaved file set: three ON files at
timestamps 10 < 30 < 50 and three OFF files at 20 < 40 < 60, presented in a
shuffled order. -/
theorem classify_phases_interleaving_witness :
    classify_phases (sortByTimestamp
        [offFile 60, onFile 10, offFile 20, onFile 50, offFile 40, onFile 30]) =
      { ems_response := some (onFile 10), train_phase1 := some (onFile 30)
        train_phase2 := some (onFile 50), baseline := some (offFile 20)
        measure_phase1 := some (offFile 40), measure_phase2 := some (offFile 60) } :=
  classify_phases_interleaving (onFile 10) (onFile 30) (onFile 50)
    (offFile 20) (offFile 40) (offFile 60)
    [offFile 60, onFile 10, offFile 20, onFile 50, offFile 40, onFile 30]
    (by decide) rfl rfl rfl rfl rfl rfl
    (by decide) (by decide) (by decide) (by decide)

/-! ### Evaluation helpers for concrete series -/

theorem seriesQuantile_eval (l : List ℚ) (q : ℚ) (s : List ℚ) (i : ℕ)
    (hs : List.insertionSort (fun a b : ℚ => a ≤ b) l = s)
    (hi : Int.floor (q * ((l.length : ℚ) - 1)) = (i : ℤ)) :
    seriesQuantile l q =
      s.getD i 0 + (s.getD (i + 1) (s.getD i 0) - s.getD i 0) *
        (q * ((l.length : ℚ) - 1) - (i : ℚ)) := by
  simp only [seriesQuantile]
  rw [hs, hi]
  simp

theorem iqrBounds_eval (c : List ℚ) (q1 q3 : ℚ)
    (h1 : seriesQuantile c (1 / 4) = q1) (h3 : seriesQuantile c (3 / 4) = q3) :
    iqrBounds c = (q1 - 3 / 2 * (q3 - q1), q3 + 3 / 2 * (q3 - q1)) := by
  simp only [iqrBounds]
  rw [h1, h3]

theorem remove_outliers_eval (s c : List ℚ) (lo hi : ℚ)
    (hc : physioFilter s = c) (hb : iqrBounds c = (lo, hi)) :
    remove_outliers s = c.filter (fun x => decide (lo ≤ x) && decide (x ≤ hi)) := by
  simp only [remove_outliers]
  rw [hc, hb]

theorem sample7_sorted :
    List.insertionSort (fun a b : ℚ => a ≤ b) [120, 130, 125, 128, 122, 900, 121]
      = [120, 121, 122, 125, 128, 130, 900] := by
  norm_num [List.insertionSort, List.orderedInsert]

theorem sample7_q1 : seriesQuantile [120, 130, 125, 128, 122, 900, 121] (1 / 4) = 243 / 2 := by
  rw [seriesQuantile_eval [120, 130, 125, 128, 122, 900, 121] (1 / 4)
    [120, 121, 122, 125, 128, 130, 900] 1 sample7_sorted (by norm_num)]
  norm_num

theorem sample7_q3 : seriesQuantile [120, 130, 125, 128, 122, 900, 121] (3 / 4) = 129 := by
  rw [seriesQuantile_eval [120, 130, 125, 128, 122, 900, 121] (3 / 4)
    [120, 121, 122, 125, 128, 130, 900] 4 sample7_sorted (by norm_num)]
  norm_num

theorem sample7_eval :
    remove_outliers [120, 130, 125, 128, 122, 900, 121] = [120, 130, 125, 128, 122, 121] := by
  rw [remove_outliers_eval [120, 130, 125, 128, 122, 900, 121]
    [120, 130, 125, 128, 122, 900, 121] (441 / 4) (561 / 4)
    (by norm_num [physioFilter, physioKeep])
    (by rw [iqrBounds_eval _ _ _ sample7_q1 sample7_q3]; norm_num)]
  norm_num

theorem sample6_sorted :
    List.insertionSort (fun a b : ℚ => a ≤ b) [120, 130, 125, 128, 122, 121]
      = [120, 121, 122, 125, 128, 130] := by
  norm_num [List.insertionSort, List.orderedInsert]

theorem sample6_q1 : seriesQuantile [120, 130, 125, 128, 122, 121] (1 / 4) = 485 / 4 := by
  rw [seriesQuantile_eval [120, 130, 125, 128, 122, 121] (1 / 4)
    [120, 121, 122, 125, 128, 130] 1 sample6_sorted (by norm_num)]
  norm_num

theorem sample6_q3 : seriesQuantile [120, 130, 125, 128, 122, 121] (3 / 4) = 509 / 4 := by
  rw [seriesQuantile_eval [120, 130, 125, 128, 122, 121] (3 / 4)
    [120, 121, 122, 125, 128, 130] 3 sample6_sorted (by norm_num)]
  norm_num

theorem sample6_bounds : iqrBounds [120, 130, 125, 128, 122, 121] = (449 / 4, 545 / 4) := by
  rw [iqrBounds_eval _ _ _ sample6_q1 sample6_q3]
  norm_num

/-- C6: the outlier filter's output is a subsequence of the input restricted
to `[100, 1000]` ms (hence of the input itself: no new values, order
preserved, all output values in the physiological band); and on a series
entirely within `[100, 1000]` and within its own `[Q1 - 1.5*IQR, Q3 + 1.5*IQR]`
bounds the output is the unchanged input. -/
theorem remove_outliers_props (s : List ℚ) :
    (remove_outliers s).Sublist (physioFilter s) ∧
    (remove_outliers s).Sublist s ∧
    (∀ x ∈ remove_outliers s, 100 ≤ x ∧ x ≤ 1000) ∧
    ((∀ x ∈ s, 100 ≤ x ∧ x ≤ 1000) →
      (∀ x ∈ s, (iqrBounds s).1 ≤ x ∧ x ≤ (iqrBounds s).2) →
      remove_outliers s = s) :=
  ⟨remove_outliers_sublist_physio s, remove_outliers_sublist s,
    fun _ hx => remove_outliers_mem hx, fun h1 h2 => remove_outliers_eq_self h1 h2⟩

/-- Witness for C6 on the in-band series `[120, 130, 125]` (IQR bounds
`(115, 135)`): the filter returns it unchanged. -/
theorem remove_outliers_props_witness :
    (remove_outliers [120, 130, 125]).Sublist (physioFilter [120, 130, 125]) ∧
    remove_outliers [120, 130, 125] = [120, 130, 125] := by
  have hb : iqrBounds [120, 130, 125] = (115, 135) := by
    norm_num [iqrBounds, seriesQuantile, List.insertionSort, List.orderedInsert]
  refine ⟨(remove_outliers_props [120, 130, 125]).1,
    (remove_outliers_props [120, 130, 125]).2.2.2 ?_ ?_⟩
  · intro x hx
    fin_cases hx <;> norm_num
  · rw [hb]
    intro x hx
    fin_cases hx <;> norm_num

/-- C7: the outlier filter is idempotent on series whose value distribution
does not shift past its own bounds after the first pass — formally, whenever
every first-pass survivor lies within the IQR bounds recomputed on the
first-pass output, a second application changes nothing. -/
theorem remove_outliers_idempotent (s : List ℚ)
    (h : ∀ x ∈ remove_outliers s,
      (iqrBounds (remove_outliers s)).1 ≤ x ∧ x ≤ (iqrBounds (remove_outliers s)).2) :
    remove_outliers (remove_outliers s) = remove_outliers s :=
  remove_outliers_eq_self (fun _ hx => remove_outliers_mem hx) h

/-- Witness for C7 on the spec's synthetic series
`[120, 130, 125, 128, 122, 900, 121]`: the first pass removes exactly `900`
(IQR bounds `(110.25, 140.25)`), and the second pass (IQR bounds recomputed as
`(112.25, 136.25)`) removes nothing. -/
theorem remove_outliers_idempotent_witness :
    remove_outliers [120, 130, 125, 128, 122, 900, 121] = [120, 130, 125, 128, 122, 121] ∧
    remove_outliers (remove_outliers [120, 130, 125, 128, 122, 900, 121]) =
      remove_outliers [120, 130, 125, 128, 122, 900, 121] := by
  refine ⟨sample7_eval, remove_outliers_idempotent _ ?_⟩
  rw [sample7_eval, sample6_bounds]
  intro x hx
  fin_cases hx <;> norm_num

theorem sampleSingle_eval : remove_outliers [300] = [300] := by
  norm_num [remove_outliers, physioFilter, physioKeep, iqrBounds, seriesQuantile,
    List.insertionSort, List.orderedInsert]

theorem samplePair300_eval : remove_outliers [300, 310] = [300, 310] := by
  norm_num [remove_outliers, physioFilter, physioKeep, iqrBounds, seriesQuantile,
    List.insertionSort, List.orderedInsert]

theorem samplePair280_eval : remove_outliers [280, 290] = [280, 290] := by
  norm_num [remove_outliers, physioFilter, physioKeep, iqrBounds, seriesQuantile,
    List.insertionSort, List.orderedInsert]

/-- C5 (amended): the source defines no `DataInsufficientError` and
`analyze_subject` raises nothing on short cleaned series; whenever a cleaned
phase series has zero or one values, the analyzer completes and reports a NaN
(`none`) standard deviation for that phase. -/
theorem analyze_subject_nan_sd (mwuG : List ℚ → List ℚ → ℚ × ℚ) (bl p1 p2 : List ℚ) :
    ((remove_outliers bl).length ≤ 1 → (analyze_subject mwuG bl p1 p2).bl_sd2 = none) ∧
    ((remove_outliers p1).length ≤ 1 → (analyze_subject mwuG bl p1 p2).p1_sd2 = none) ∧
    ((remove_outliers p2).length ≤ 1 → (analyze_subject mwuG bl p1 p2).p2_sd2 = none) := by
  refine ⟨fun h => ?_, fun h => ?_, fun h => ?_⟩ <;>
  · simp only [analyze_subject, pandasSd2]
    rw [if_neg (by omega)]

/-- Witness for C5 (amended) at a concrete subject whose cleaned baseline has
exactly one value. -/
theorem analyze_subject_nan_sd_witness :
    (analyze_subject mwuDummy [300] [280, 290] [280, 290]).bl_sd2 = none :=
  (analyze_subject_nan_sd mwuDummy [300] [280, 290] [280, 290]).1
    (by rw [sampleSingle_eval]; norm_num)

/-- C5 counterexample: the claim says the subject analyzer raises a
`DataInsufficientError` when a cleaned phase series has zero or one values.
On a subject whose baseline file holds the single trial `300` ms (cleaned
length 1), the source raises nothing: the analyzer returns normally (`.ok`)
and emits NaN (`none`) for the baseline standard deviation. -/
theorem analyze_subject_no_error_cex :
    (remove_outliers [300]).length = 1 ∧
    (analyze_subject mwuDummy [300] [280, 290] [280, 290]).bl_sd2 = none ∧
    analyzeFromPhases mwuDummy
        { ems_response := none, train_phase1 := none, train_phase2 := none
          baseline := some ⟨"b", "EMS_OFF", 1, [], [300]⟩
          measure_phase1 := some ⟨"m1", "EMS_OFF", 2, [], [280, 290]⟩
          measure_phase2 := some ⟨"m2", "EMS_OFF", 3, [], [280, 290]⟩ } =
      .ok (analyze_subject mwuDummy [300] [280, 290] [280, 290]) := by
  refine ⟨by rw [sampleSingle_eval]; rfl, ?_, rfl⟩
  simp only [analyze_subject]
  rw [sampleSingle_eval]
  simp [pandasSd2]

/-- C3 (amended): for cleaned series with at least two values, every reported
effect size matches the spec formula `(mean₁ − mean₂)/sqrt((SD₁² + SD₂²)/2)`
(in `(numerator, squared denominator)` representation) — but under two
different SD definitions rather than one consistent one: `analyze_subject`
uses the pandas sample SD (`ddof = 1`), while the pooled post-hoc and
supplementary comparisons of `group_analysis` use the numpy population SD
(`ddof = 0`). -/
theorem effect_size_formula (mwuG : List ℚ → List ℚ → ℚ × ℚ) (bl p1 p2 : List ℚ)
    (h1 : 2 ≤ (remove_outliers bl).length) (h2 : 2 ≤ (remove_outliers p1).length)
    (h3 : 2 ≤ (remove_outliers p2).length) :
    (analyze_subject mwuG bl p1 p2).d_p1 =
      some (specEffectSize sampleVar (remove_outliers bl) (remove_outliers p1)) ∧
    (analyze_subject mwuG bl p1 p2).d_p2 =
      some (specEffectSize sampleVar (remove_outliers bl) (remove_outliers p2)) ∧
    (∀ kr m2 mg results rows, group_pooled kr m2 mg results = PooledTail.posthoc rows →
      rows.map PooledRow.d =
        [specEffectSize popVar (allBl results) (allP1 results),
          specEffectSize popVar (allBl results) (allP2 results),
          specEffectSize popVar (allP1 results) (allP2 results)]) ∧
    (∀ kr m2 mg results rows, group_pooled kr m2 mg results = PooledTail.supplementary rows →
      rows.map PooledRow.d =
        [specEffectSize popVar (allBl results) (allP1 results),
          specEffectSize popVar (allBl results) (allP2 results)]) := by
  refine ⟨?_, ?_, ?_, ?_⟩
  · simp only [analyze_subject, subjectEffect, pandasSd2, if_pos h1, if_pos h2]
    rfl
  · simp only [analyze_subject, subjectEffect, pandasSd2, if_pos h1, if_pos h3]
    rfl
  · intro kr m2 mg results rows hrow
    by_cases hc : (kr (allBl results) (allP1 results) (allP2 results)).2 < 1 / 20
    · simp only [group_pooled, if_pos hc] at hrow
      obtain rfl := (PooledTail.posthoc.injEq _ _).mp hrow.symm
      simp [pooledEffect, specEffectSize]
    · simp only [group_pooled, if_neg hc] at hrow
      exact absurd hrow (by simp)
  · intro kr m2 mg results rows hrow
    by_cases hc : (kr (allBl results) (allP1 results) (allP2 results)).2 < 1 / 20
    · simp only [group_pooled, if_pos hc] at hrow
      exact absurd hrow (by simp)
    · simp only [group_pooled, if_neg hc] at hrow
      obtain rfl := (PooledTail.supplementary.injEq _ _).mp hrow.symm
      simp [pooledEffect, specEffectSize]

/-- Witness for C3 (amended) on a subject with cleaned series `[300, 310]`,
`[280, 290]`, `[280, 290]`. -/
theorem effect_size_formula_witness :
    (analyze_subject mwuDummy [300, 310] [280, 290] [280, 290]).d_p1 =
      some (specEffectSize sampleVar (remove_outliers [300, 310])
        (remove_outliers [280, 290])) :=
  (effect_size_formula mwuDummy [300, 310] [280, 290] [280, 290]
    (by rw [samplePair300_eval]; norm_num) (by rw [samplePair280_eval]; norm_num)
    (by rw [samplePair280_eval]; norm_num)).1

/-- C3 counterexample: no single consistent SD definition is used throughout.
On the identical data (baseline `[300, 310]`, post-phase pools `[280, 290]`),
`analyze_subject` reports the baseline-vs-post effect size `(20, 50)` — the
real number `20/sqrt 50` — while the pooled post-hoc of `group_analysis`
reports `(20, 25)` — the real number `20/sqrt 25`: equal nonzero numerators
with different positive squared denominators, i.e. two different reported
effect sizes for the same comparison, because the first divides by the sample
SD and the second by the population SD. -/
theorem effect_size_inconsistency_cex :
    (analyze_subject mwuDummy [300, 310] [280, 290] [280, 290]).d_p1 = some (20, 50) ∧
    group_pooled kruskalDummy mwuDummy mwuDummy
        [analyze_subject mwuDummy [300, 310] [280, 290] [280, 290]] =
      PooledTail.posthoc [⟨0, 0, (20, 25)⟩, ⟨0, 0, (20, 25)⟩, ⟨0, 0, (0, 25)⟩] ∧
    ((50 : ℚ) ≠ 25 ∧ (20 : ℚ) ≠ 0 ∧ (0 : ℚ) < 50 ∧ (0 : ℚ) < 25) := by
  refine ⟨?_, ?_, by norm_num⟩
  · simp only [analyze_subject, subjectEffect, samplePair300_eval, samplePair280_eval]
    norm_num [pandasSd2, sampleVar, sqDevSum, seriesMean]
  · norm_num [group_pooled, allBl, allP1, allP2, analyze_subject, samplePair300_eval,
      samplePair280_eval, pooledEffect, popVar, sqDevSum, seriesMean, kruskalDummy, mwuDummy]

/-- C2: if the Kruskal-Wallis p-value over the three pooled series is below
0.05, `group_analysis` runs two-sided rank-sum tests on all three pool pairs,
reporting `min(p*3, 1.0)` (so every reported corrected p-value is ≤ 1)
together with the standardized effect size; otherwise it runs the uncorrected
one-sided rank-sum tests of the pooled baseline against each post-phase pool
only. -/
theorem group_pooled_branching (kr : List ℚ → List ℚ → List ℚ → ℚ × ℚ)
    (m2 mg : List ℚ → List ℚ → ℚ × ℚ) (results : List SubjectResult) :
    ((kr (allBl results) (allP1 results) (allP2 results)).2 < 1 / 20 →
      group_pooled kr m2 mg results = PooledTail.posthoc
        [⟨(m2 (allBl results) (allP1 results)).1,
          min ((m2 (allBl results) (allP1 results)).2 * 3) 1,
          pooledEffect (allBl results) (allP1 results)⟩,
          ⟨(m2 (allBl results) (allP2 results)).1,
          min ((m2 (allBl results) (allP2 results)).2 * 3) 1,
          pooledEffect (allBl results) (allP2 results)⟩,
          ⟨(m2 (allP1 results) (allP2 results)).1,
          min ((m2 (allP1 results) (allP2 results)).2 * 3) 1,
          pooledEffect (allP1 results) (allP2 results)⟩]) ∧
    (¬ (kr (allBl results) (allP1 results) (allP2 results)).2 < 1 / 20 →
      group_pooled kr m2 mg results = PooledTail.supplementary
        [⟨(mg (allBl results) (allP1 results)).1,
          (mg (allBl results) (allP1 results)).2,
          pooledEffect (allBl results) (allP1 results)⟩,
          ⟨(mg (allBl results) (allP2 results)).1,
          (mg (allBl results) (allP2 results)).2,
          pooledEffect (allBl results) (allP2 results)⟩]) ∧
    (∀ rows, group_pooled kr m2 mg results = PooledTail.posthoc rows →
      ∀ r ∈ rows, r.p ≤ 1) := by
  refine ⟨fun h => ?_, fun h => ?_, fun rows hrow r hr => ?_⟩
  · simp only [group_pooled, if_pos h, List.map]
  · simp only [group_pooled, if_neg h, List.map]
  · by_cases hc : (kr (allBl results) (allP1 results) (allP2 results)).2 < 1 / 20
    · simp only [group_pooled, if_pos hc] at hrow
      obtain rfl := (PooledTail.posthoc.injEq _ _).mp hrow.symm
      simp only [List.map, List.mem_cons, List.not_mem_nil, or_false] at hr
      rcases hr with rfl | rfl | rfl <;> exact min_le_right _ _
    · simp only [group_pooled, if_neg hc] at hrow
      exact absurd hrow (by simp)

/-- Witness for C2: with a stand-in omnibus test returning `p = 0` the
post-hoc branch runs (all corrected p-values ≤ 1), and with one returning
`p = 1` the supplementary branch runs. -/
theorem group_pooled_branching_witness :
    group_pooled kruskalDummy mwuDummy mwuDummy [] =
      PooledTail.posthoc [⟨0, 0, (0, 0)⟩, ⟨0, 0, (0, 0)⟩, ⟨0, 0, (0, 0)⟩] ∧
    group_pooled kruskalOne mwuDummy mwuDummy [] =
      PooledTail.supplementary [⟨0, 0, (0, 0)⟩, ⟨0, 0, (0, 0)⟩] := by
  constructor
  · have h := (group_pooled_branching kruskalDummy mwuDummy mwuDummy []).1
      (by norm_num [kruskalDummy])
    rw [h]
    norm_num [mwuDummy, pooledEffect, popVar, sqDevSum, seriesMean, allBl, allP1, allP2]
  · have h := (group_pooled_branching kruskalOne mwuDummy mwuDummy []).2.1
      (by norm_num [kruskalOne])
    rw [h]
    norm_num [mwuDummy, pooledEffect, popVar, sqDevSum, seriesMean, allBl, allP1, allP2]

/-- C9: a subject with fewer than 3 files of a given stimulation status gets a
classification that simply lacks the corresponding phase keys (classification
itself never fails), and the subject analyzer — which reads `baseline`,
`measure_phase1` and `measure_phase2` — then fails with a missing-key error
whenever fewer than 3 OFF files are present. -/
theorem missing_phase_keys (files : List RawTrialFile) (mwuG : List ℚ → List ℚ → ℚ × ℚ) :
    ((files.filter (fun f => f.ems_status == "EMS_ON")).length < 1 →
      (classify_phases files).ems_response = none) ∧
    ((files.filter (fun f => f.ems_status == "EMS_ON")).length < 2 →
      (classify_phases files).train_phase1 = none) ∧
    ((files.filter (fun f => f.ems_status == "EMS_ON")).length < 3 →
      (classify_phases files).train_phase2 = none) ∧
    ((files.filter (fun f => f.ems_status == "EMS_OFF")).length < 1 →
      (classify_phases files).baseline = none) ∧
    ((files.filter (fun f => f.ems_status == "EMS_OFF")).length < 2 →
      (classify_phases files).measure_phase1 = none) ∧
    ((files.filter (fun f => f.ems_status == "EMS_OFF")).length < 3 →
      (classify_phases files).measure_phase2 = none) ∧
    ((files.filter (fun f => f.ems_status == "EMS_OFF")).length < 3 →
      analyzeFromPhases mwuG (classify_phases files) = .error .keyError) := by
  have key : ∀ (l : List RawTrialFile) (n : ℕ), l.length < n + 1 → l.get? n = none :=
    fun l n h => List.get?_eq_none.mpr (by omega)
  refine ⟨fun h => key _ 0 h, fun h => key _ 1 h, fun h => key _ 2 h,
    fun h => key _ 0 h, fun h => key _ 1 h, fun h => key _ 2 h, fun h => ?_⟩
  have hm2 : (classify_phases files).measure_phase2 = none := key _ 2 h
  simp only [analyzeFromPhases, hm2]
  rcases (classify_phases files).baseline with _ | bl <;>
    rcases (classify_phases files).measure_phase1 with _ | p1 <;> rfl

/-- Witness for C9 on a subject with a single `EMS_OFF` file: the ON and OFF
phase keys beyond the available files are absent and the analyzer raises the
missing-key error. -/
theorem missing_phase_keys_witness :
    (classify_phases [offFile 20]).train_phase2 = none ∧
    (classify_phases [offFile 20]).measure_phase2 = none ∧
    analyzeFromPhases mwuDummy (classify_phases [offFile 20]) = .error .keyError :=
  ⟨(missing_phase_keys [offFile 20] mwuDummy).2.2.1 (by decide),
    (missing_phase_keys [offFile 20] mwuDummy).2.2.2.2.2.1 (by decide),
    (missing_phase_keys [offFile 20] mwuDummy).2.2.2.2.2.2 (by decide)⟩

set_option maxRecDepth 10000 in
/-- C10: with the fixed parameters (`PULSE_WIDTH_US = 50`, `BURST_COUNT = 3`,
`PULSE_COUNT = 1`), `generate_biphasic_waveform` returns time and waveform
arrays of equal length `4*PULSE_WIDTH_US*BURST_COUNT = 600`; the time array is
`0, 1, ..., 599` (strictly increasing with step 1, no inter-pulse interval
since `PULSE_COUNT = 1`); the waveform is three identical 200-sample cycles of
50 samples `+1`, 50 samples `0`, 50 samples `-1`, 50 samples `0`, every value
lies in `{-1, 0, 1}`, and the waveform sums to zero (charge balance). -/
theorem generate_biphasic_waveform_props :
    generate_time.length = generate_waveform.length ∧
    generate_waveform.length = 4 * PULSE_WIDTH_US * BURST_COUNT ∧
    generate_waveform.length = 600 ∧
    generate_time = List.range 600 ∧
    generate_waveform =
      (List.replicate BURST_COUNT (List.replicate 50 (1 : ℤ) ++ List.replicate 50 0 ++
        List.replicate 50 (-1) ++ List.replicate 50 0)).flatten ∧
    generate_waveform.all (fun v => v == 1 || v == 0 || v == -1) = true ∧
    generate_waveform.sum = 0 := by
  refine ⟨?_, ?_, ?_, ?_, ?_, ?_, ?_⟩ <;> decide

/-- C8 (amended): `parse_csv` matches the section markers by `startswith` on
the trimmed line, not by character-for-character equality: any trimmed line
beginning with `'--- Settings ---'` enters settings mode, else one beginning
with `'--- Summary ---'` terminates parsing, else one beginning with
`'Trial,Direction,'` (not merely the exact header plus extra columns) enters
trial mode; lines matching none of the three prefixes leave both mode flags
unchanged. -/
theorem parse_marker_prefixes (st : ParserState) (raw : String) :
    (settingsMarker.isPrefixOf (trimChars raw.data) = true →
      parseLine st raw = .ok (some { st with in_settings := true, in_trials := false })) ∧
    (settingsMarker.isPrefixOf (trimChars raw.data) = false →
      summaryMarker.isPrefixOf (trimChars raw.data) = true →
      parseLine st raw = .ok none) ∧
    (settingsMarker.isPrefixOf (trimChars raw.data) = false →
      summaryMarker.isPrefixOf (trimChars raw.data) = false →
      trialsMarker.isPrefixOf (trimChars raw.data) = true →
      parseLine st raw = .ok (some { st with in_trials := true, in_settings := false })) ∧
    (settingsMarker.isPrefixOf (trimChars raw.data) = false →
      summaryMarker.isPrefixOf (trimChars raw.data) = false →
      trialsMarker.isPrefixOf (trimChars raw.data) = false →
      ∀ st2, parseLine st raw = .ok (some st2) →
        st2.in_settings = st.in_settings ∧ st2.in_trials = st.in_trials) := by
  refine ⟨fun h1 => ?_, fun h1 h2 => ?_, fun h1 h2 h3 => ?_, fun h1 h2 h3 st2 hr => ?_⟩
  · simp [parseLine, h1]
  · simp [parseLine, h1, h2]
  · simp [parseLine, h1, h2, h3]
  · simp only [parseLine, h1, h2, h3, Bool.false_eq_true, if_false] at hr
    split at hr <;> split at hr <;> (try split at hr) <;> (try split at hr) <;>
      first
      | ((try simp only [Except.ok.injEq, Option.some.injEq] at hr); subst hr; exact ⟨rfl, rfl⟩)
      | simp at hr

/-- Witness for C8 (amended) on the exact marker lines and a plain data row. -/
theorem parse_marker_prefixes_witness :
    parseLine ⟨false, false, [], []⟩ "--- Settings ---" =
      .ok (some ⟨true, false, [], []⟩) ∧
    parseLine ⟨true, false, [], []⟩ "--- Summary ---" = .ok none ∧
    parseLine ⟨true, false, [], []⟩ "Trial,Direction,ReactionTime_ms" =
      .ok (some ⟨false, true, [], []⟩) ∧
    (∀ st2, parseLine ⟨false, true, [], []⟩ "12,Left,250.5" = .ok (some st2) →
      st2.in_settings = false ∧ st2.in_trials = true) :=
  ⟨(parse_marker_prefixes ⟨false, false, [], []⟩ "--- Settings ---").1 (by decide),
    (parse_marker_prefixes ⟨true, false, [], []⟩ "--- Summary ---").2.1
      (by decide) (by decide),
    (parse_marker_prefixes ⟨true, false, [], []⟩ "Trial,Direction,ReactionTime_ms").2.2.1
      (by decide) (by decide) (by decide),
    fun st2 h =>
      (parse_marker_prefixes ⟨false, true, [], []⟩ "12,Left,250.5").2.2.2
        (by decide) (by decide) (by decide) st2 h⟩

/-- C8 counterexample: the claim says only a trimmed line exactly equal to a
marker switches modes.  The line `"--- Settings ---junk"` differs from the
settings marker, yet it switches the parser into settings mode — witnessed by
the following `"k,v"` line being recorded as a setting (under the claim, the
settings mapping would remain empty). -/
theorem parse_marker_exact_cex :
    strOf (trimChars ("--- Settings ---junk".data)) ≠ "--- Settings ---" ∧
    parse_csv ["--- Settings ---junk", "k,v"] = .ok ([("k", "v")], []) :=
  ⟨by decide, rfl⟩

/-- C4 (amended): in trial mode, a row with fewer than 3 comma-separated
fields is dropped without error; but a row with 3 or more fields whose field 0
is not an integer or whose field 2 is not a float makes the parser raise a
`ValueError` — parsing is not total on malformed rows with enough fields. -/
theorem parse_trial_row_behavior (st : ParserState) (raw : String)
    (hset : settingsMarker.isPrefixOf (trimChars raw.data) = false)
    (hsum : summaryMarker.isPrefixOf (trimChars raw.data) = false)
    (htri : trialsMarker.isPrefixOf (trimChars raw.data) = false)
    (hmode : st.in_settings = false) (htr : st.in_trials = true) :
    ((splitOnChar ',' (trimChars raw.data)).length < 3 →
      parseLine st raw = .ok (some st)) ∧
    (∀ p0 p1 p2 rest, splitOnChar ',' (trimChars raw.data) = p0 :: p1 :: p2 :: rest →
      (pyIntParse p0 = none ∨ pyFloatParse p2 = none) →
      parseLine st raw = .error (.valueError (strOf (trimChars raw.data)))) := by
  constructor
  · intro hlen
    simp only [parseLine, hset, hsum, htri, Bool.false_eq_true, if_false, hmode,
      Bool.false_and, htr, Bool.true_and]
    by_cases hemp : (trimChars raw.data).isEmpty
    · simp [hemp]
    · simp only [Bool.not_eq_true] at hemp
      simp only [hemp, Bool.not_false, if_true]
      split
      · rename_i p0 p1 p2 rest hsp
        rw [hsp] at hlen
        simp only [List.length_cons] at hlen
        omega
      · rfl
  · intro p0 p1 p2 rest hsp hbad
    have hne : (trimChars raw.data).isEmpty = false := by
      cases hemp : trimChars raw.data
      · rw [hemp] at hsp
        simp [splitOnChar] at hsp
      · rfl
    simp only [parseLine, hset, hsum, htri, Bool.false_eq_true, if_false, hmode,
      Bool.false_and, htr, Bool.true_and, hne, Bool.not_false, if_true, hsp]
    rcases hbad with hb | hb
    · simp [hb]
    · rcases hpi : pyIntParse p0 with _ | i <;> simp [hpi, hb]

/-- Witness for C4 (amended): in trial mode, the 1-field row `"oops"` is
dropped without error, while the 3-field row `"abc,left,200"` with a
non-integer field 0 raises the `ValueError`. -/
theorem parse_trial_row_behavior_witness :
    parseLine ⟨false, true, [], []⟩ "oops" = .ok (some ⟨false, true, [], []⟩) ∧
    parseLine ⟨false, true, [], []⟩ "abc,left,200" =
      .error (.valueError "abc,left,200") :=
  ⟨(parse_trial_row_behavior ⟨false, true, [], []⟩ "oops" (by decide) (by decide) (by decide)
      rfl rfl).1 (by decide),
    (parse_trial_row_behavior ⟨false, true, [], []⟩ "abc,left,200" (by decide) (by decide)
      (by decide) rfl rfl).2 ("abc".data) ("left".data) ("200".data) []
      (by decide) (Or.inl (by decide))⟩

/-- C4 counterexample: the claim says parsing never fails once the file is
decoded, and in particular that a trial row with 3 or more fields never makes
it fail even when field 0 is not an integer.  The file whose trial row is
`"abc,left,200"` (3 fields, non-integer field 0) makes `parse_csv` raise the
`ValueError` from `int(parts[0])` instead of returning. -/
theorem parse_csv_malformed_row_cex :
    (splitOnChar ',' (trimChars "abc,left,200".data)).length = 3 ∧
    parse_csv ["Trial,Direction,ReactionTime_ms", "abc,left,200"] =
      .error (.valueError "abc,left,200") :=
  ⟨by decide, rfl⟩
